import Mathlib

/-!
# Dark-mode theming and UTF-16 → UTF-8 conversion of the Windows runner

A shallow embedding of `windows/runner/dark_mode_utils.cpp` and of
`Utf8FromUtf16` from `windows/runner/utils.cpp`.

* Pointers, handles and `LPARAM` values are natural numbers; `0` is the null
  pointer.
* The operating system is an explicit record of answers (`OsEnv`): what
  `GetProcAddress`, `LoadLibraryExW`, the version query, the dark-mode query
  and the high-contrast query return.
* The globals of namespace `DarkMode` are the record `ThemeState`; every
  function takes the state and returns the new state.
* Calls made to the operating system are recorded, in order, in a list of
  `OsCall` events, so that "calls X, then Y" and "performs no call" are
  statements about that list.
-/

namespace DarkMode

/-- The `enum class PreferredAppMode` of `dark_mode_utils.h`. -/
inductive PreferredAppMode where
  | Default
  | AllowDark
  | ForceDark
  | ForceLight
  | Max
  deriving DecidableEq, Repr

/-- Second argument of `GetProcAddress`: a procedure name or, through
`MAKEINTRESOURCEA`, an ordinal. -/
inductive ProcId where
  | byName (name : String)
  | byOrdinal (ordinal : Nat)
  deriving DecidableEq, Repr

/-- The answers of the operating system that the theming code observes. -/
structure OsEnv where
  /-- `GetModuleHandleW(name)`: the module handle, `0` when there is none. -/
  GetModuleHandleW : String → Nat
  /-- `GetProcAddress(module, id)`: the entry point, `0` when unresolved. -/
  GetProcAddress : Nat → ProcId → Nat
  /-- `LoadLibraryExW(name, nullptr, flags)`: the module, `0` on failure. -/
  LoadLibraryExW : String → Nat → Nat
  /-- Major version written by `RtlGetNtVersionNumbers`. -/
  ntMajor : Nat
  /-- Minor version written by `RtlGetNtVersionNumbers`. -/
  ntMinor : Nat
  /-- Build value written by `RtlGetNtVersionNumbers` (raw, flag bits included). -/
  ntBuild : Nat
  /-- Result of calling the `ShouldAppsUseDarkMode` entry point. -/
  shouldAppsUseDarkMode : Bool
  /-- Return value (a `BOOL`) of `SystemParametersInfoW(SPI_GETHIGHCONTRAST, ..)`. -/
  spiGetHighContrast : Nat
  /-- The `dwFlags` field of the `HIGHCONTRASTW` the call fills in. -/
  highContrastFlags : Nat
  /-- The wide string stored at an address: its code units before the
  terminating NUL. -/
  wideStringAt : Nat → List Nat

/-- The globals of namespace `DarkMode`. -/
structure ThemeState where
  SetPreferredAppMode : Nat
  FlushMenuThemes : Nat
  RefreshImmersiveColorPolicyState : Nat
  ShouldAppsUseDarkMode : Nat
  AllowDarkModeForWindow : Nat
  g_darkModeSupported : Bool
  g_buildNumber : Nat
  deriving DecidableEq, Repr

/-- The static initialisers: every pointer `nullptr`, flag `false`, build `0`. -/
def initialState : ThemeState :=
  { SetPreferredAppMode := 0
    FlushMenuThemes := 0
    RefreshImmersiveColorPolicyState := 0
    ShouldAppsUseDarkMode := 0
    AllowDarkModeForWindow := 0
    g_darkModeSupported := false
    g_buildNumber := 0 }

/-- A value stored in a 32-bit `DWORD`. -/
def toDWORD (n : Nat) : Nat := n % 2 ^ 32

/-- Bitwise complement of a 32-bit unsigned value. -/
def not32 (n : Nat) : Nat := 2 ^ 32 - 1 - n % 2 ^ 32

/-- The flag `LOAD_LIBRARY_SEARCH_SYSTEM32` of the Windows headers. -/
def LOAD_LIBRARY_SEARCH_SYSTEM32 : Nat := 0x800

/-- The flag `HCF_HIGHCONTRASTON` of the Windows headers. -/
def HCF_HIGHCONTRASTON : Nat := 0x1

/-- The attribute `DWMWA_USE_IMMERSIVE_DARK_MODE`, defined as 20 in the source. -/
def DWMWA_USE_IMMERSIVE_DARK_MODE : Nat := 20

/-- Body of `IsDarkModeSupported`. -/
def IsDarkModeSupported (s : ThemeState) : Bool := s.g_darkModeSupported

/-- Body of `IsHighContrast`: the high-contrast bit of `dwFlags` when the
query succeeds, `false` when it fails. -/
def IsHighContrast (env : OsEnv) : Bool :=
  if env.spiGetHighContrast ≠ 0 then
    (env.highContrastFlags % 2 ^ 32) &&& HCF_HIGHCONTRASTON != 0
  else
    false

/-- Body of `Initialize`, statement by statement. -/
def Initialize (env : OsEnv) (s : ThemeState) : ThemeState :=
  let RtlGetNtVersionNumbers :=
    env.GetProcAddress (env.GetModuleHandleW "ntdll.dll") (.byName "RtlGetNtVersionNumbers")
  if RtlGetNtVersionNumbers = 0 then s
  else
    let major := toDWORD env.ntMajor
    let minor := toDWORD env.ntMinor
    let s1 := { s with g_buildNumber := toDWORD env.ntBuild }
    let s2 := { s1 with g_buildNumber := s1.g_buildNumber &&& not32 0xF0000000 }
    if major ≠ 10 ∨ minor ≠ 0 ∨ s2.g_buildNumber < 17763 then s2
    else
      let hUxtheme := env.LoadLibraryExW "uxtheme.dll" LOAD_LIBRARY_SEARCH_SYSTEM32
      if hUxtheme = 0 then s2
      else
        let s3 := { s2 with
          RefreshImmersiveColorPolicyState := env.GetProcAddress hUxtheme (.byOrdinal 104) }
        let s4 := { s3 with
          ShouldAppsUseDarkMode := env.GetProcAddress hUxtheme (.byOrdinal 132) }
        let s5 := { s4 with
          AllowDarkModeForWindow := env.GetProcAddress hUxtheme (.byOrdinal 133) }
        let s6 := { s5 with
          SetPreferredAppMode := env.GetProcAddress hUxtheme (.byOrdinal 135) }
        let s7 := { s6 with
          FlushMenuThemes := env.GetProcAddress hUxtheme (.byOrdinal 136) }
        if s7.RefreshImmersiveColorPolicyState ≠ 0 ∧
            s7.ShouldAppsUseDarkMode ≠ 0 ∧
            s7.AllowDarkModeForWindow ≠ 0 ∧
            s7.SetPreferredAppMode ≠ 0 ∧
            s7.FlushMenuThemes ≠ 0 then
          { s7 with g_darkModeSupported := true }
        else s7

/-- One call made to the operating system.  A call through one of the five
global function pointers records the pointer value it is made through. -/
inductive OsCall where
  | SetPreferredAppMode (fn : Nat) (appMode : PreferredAppMode)
  | RefreshImmersiveColorPolicyState (fn : Nat)
  | FlushMenuThemes (fn : Nat)
  | ShouldAppsUseDarkMode (fn : Nat)
  | AllowDarkModeForWindow (fn : Nat) (hWnd : Nat) (allow : Bool)
  | SystemParametersInfoW_GETHIGHCONTRAST
  | DwmSetWindowAttribute (hWnd : Nat) (dwAttribute : Nat) (pvAttribute : Nat)
      (cbAttribute : Nat)
  deriving DecidableEq, Repr

/-- The function pointer a call is made through; `none` for a call to an
imported function (`SystemParametersInfoW`, `DwmSetWindowAttribute`). -/
def OsCall.calledThrough : OsCall → Option Nat
  | .SetPreferredAppMode fn _ => some fn
  | .RefreshImmersiveColorPolicyState fn => some fn
  | .FlushMenuThemes fn => some fn
  | .ShouldAppsUseDarkMode fn => some fn
  | .AllowDarkModeForWindow fn _ _ => some fn
  | .SystemParametersInfoW_GETHIGHCONTRAST => none
  | .DwmSetWindowAttribute _ _ _ _ => none

/-- A call that is not made through a null function pointer. -/
def OsCall.notThroughNull (c : OsCall) : Bool :=
  c.calledThrough != some 0

/-- A call of the per-window setter `AllowDarkModeForWindow`. -/
def OsCall.isAllowDarkModeForWindow : OsCall → Bool
  | .AllowDarkModeForWindow _ _ _ => true
  | _ => false

/-- What running one function of the namespace yields: its return value, the
globals afterwards and the calls it made, oldest first. -/
structure Outcome (α : Type) where
  result : α
  state : ThemeState
  calls : List OsCall

/-- All five entry points are resolved (non-null). -/
def AllResolved (s : ThemeState) : Prop :=
  s.SetPreferredAppMode ≠ 0 ∧ s.FlushMenuThemes ≠ 0 ∧
    s.RefreshImmersiveColorPolicyState ≠ 0 ∧ s.ShouldAppsUseDarkMode ≠ 0 ∧
    s.AllowDarkModeForWindow ≠ 0

instance (s : ThemeState) : Decidable (AllResolved s) := by
  unfold AllResolved; infer_instance

/-- Body of `EnableForApp`. -/
def EnableForApp (s : ThemeState) : Outcome Unit :=
  if s.g_darkModeSupported = false then ⟨(), s, []⟩
  else
    let c1 :=
      if s.SetPreferredAppMode ≠ 0 then
        [OsCall.SetPreferredAppMode s.SetPreferredAppMode PreferredAppMode.AllowDark]
      else []
    let c2 :=
      if s.RefreshImmersiveColorPolicyState ≠ 0 then
        [OsCall.RefreshImmersiveColorPolicyState s.RefreshImmersiveColorPolicyState]
      else []
    let c3 :=
      if s.FlushMenuThemes ≠ 0 then [OsCall.FlushMenuThemes s.FlushMenuThemes] else []
    ⟨(), s, c1 ++ c2 ++ c3⟩

/-- The initialiser of `shouldUseDark` in `EnableForWindow`:
`ShouldAppsUseDarkMode && ShouldAppsUseDarkMode() && !IsHighContrast()`, with
the short-circuit evaluation of `&&`; the value and the calls evaluated. -/
def shouldUseDark (env : OsEnv) (s : ThemeState) : Bool × List OsCall :=
  if s.ShouldAppsUseDarkMode ≠ 0 then
    if env.shouldAppsUseDarkMode then
      (!IsHighContrast env,
        [OsCall.ShouldAppsUseDarkMode s.ShouldAppsUseDarkMode,
         OsCall.SystemParametersInfoW_GETHIGHCONTRAST])
    else (false, [OsCall.ShouldAppsUseDarkMode s.ShouldAppsUseDarkMode])
  else (false, [])

/-- The `BOOL` passed to `DwmSetWindowAttribute`: `TRUE` is 1, `FALSE` is 0. -/
def toBOOL (b : Bool) : Nat := if b then 1 else 0

/-- Body of `EnableForWindow`; `sizeof(BOOL)` is 4. -/
def EnableForWindow (env : OsEnv) (s : ThemeState) (hWnd : Nat) : Outcome Unit :=
  if s.g_darkModeSupported = false ∨ hWnd = 0 then ⟨(), s, []⟩
  else
    let d := shouldUseDark env s
    let c2 :=
      if s.AllowDarkModeForWindow ≠ 0 then
        [OsCall.AllowDarkModeForWindow s.AllowDarkModeForWindow hWnd d.1]
      else []
    let dark := toBOOL d.1
    ⟨(), s, d.2 ++ c2 ++
      [OsCall.DwmSetWindowAttribute hWnd DWMWA_USE_IMMERSIVE_DARK_MODE dark 4]⟩

/-- The C function `wcscmp` on two NUL-terminated wide strings, each given by its
code units before the terminator: negative, zero or positive. -/
def wcscmp : List Nat → List Nat → Int
  | [], [] => 0
  | [], _ :: _ => -1
  | _ :: _, [] => 1
  | a :: as, b :: bs =>
    if a < b then -1 else if b < a then 1 else wcscmp as bs

/-- The wide literal `L"ImmersiveColorSet"`. -/
def ImmersiveColorSet : List Nat :=
  [73, 109, 109, 101, 114, 115, 105, 118, 101, 67, 111, 108, 111, 114, 83, 101, 116]

/-- Body of `HandleThemeChange`. -/
def HandleThemeChange (env : OsEnv) (s : ThemeState) (lParam : Nat) : Outcome Bool :=
  if s.g_darkModeSupported = false then ⟨false, s, []⟩
  else
    let isColorSchemeChange :=
      if lParam ≠ 0 then
        let setting := env.wideStringAt lParam
        if wcscmp setting ImmersiveColorSet = 0 then true else false
      else false
    let c1 :=
      if s.RefreshImmersiveColorPolicyState ≠ 0 then
        [OsCall.RefreshImmersiveColorPolicyState s.RefreshImmersiveColorPolicyState]
      else []
    let c2 :=
      if isColorSchemeChange = true ∧ s.FlushMenuThemes ≠ 0 then
        [OsCall.FlushMenuThemes s.FlushMenuThemes]
      else []
    ⟨isColorSchemeChange, s, c1 ++ c2⟩

/-- The globals after `n` calls of `Initialize` that all observe `env`. -/
def initializeTimes (env : OsEnv) : Nat → ThemeState → ThemeState
  | 0, s => s
  | n + 1, s => initializeTimes env n (Initialize env s)

/-- The globals after one call of `Initialize` per environment of the list, in
order: each call may observe a different environment. -/
def initializeEach : List OsEnv → ThemeState → ThemeState
  | [], s => s
  | env :: envs, s => initializeEach envs (Initialize env s)

/-- The entry point `RtlGetNtVersionNumbers` as `Initialize` resolves it. -/
def versionQuery (env : OsEnv) : Nat :=
  env.GetProcAddress (env.GetModuleHandleW "ntdll.dll") (.byName "RtlGetNtVersionNumbers")

/-- The theming library as `Initialize` loads it. -/
def uxtheme (env : OsEnv) : Nat :=
  env.LoadLibraryExW "uxtheme.dll" LOAD_LIBRARY_SEARCH_SYSTEM32

/-- An environment of a Windows 10 build 19041 in dark mode without high
contrast, where `uxtheme.dll` exports all five ordinals. -/
def win10_19041 : OsEnv :=
  { GetModuleHandleW := fun _ => 0x7FF00000
    GetProcAddress := fun m id =>
      if m = 0x7FF00000 then
        match id with
        | .byName _ => 0x7FF01000
        | .byOrdinal _ => 0
      else if m = 0x7FE00000 then
        match id with
        | .byOrdinal 104 => 0x7FE00104
        | .byOrdinal 132 => 0x7FE00132
        | .byOrdinal 133 => 0x7FE00133
        | .byOrdinal 135 => 0x7FE00135
        | .byOrdinal 136 => 0x7FE00136
        | _ => 0
      else 0
    LoadLibraryExW := fun _ _ => 0x7FE00000
    ntMajor := 10
    ntMinor := 0
    ntBuild := 0xF0004A61
    shouldAppsUseDarkMode := true
    spiGetHighContrast := 1
    highContrastFlags := 0
    wideStringAt := fun a => if a = 0x1000 then ImmersiveColorSet else [87] }

/-- The environment `win10_19041` with ordinal 104 missing from `uxtheme.dll`. -/
def win10_no104 : OsEnv :=
  { win10_19041 with
    GetProcAddress := fun m id =>
      if id = .byOrdinal 104 then 0 else win10_19041.GetProcAddress m id }

/-- The environment `win10_19041` with high-contrast mode switched on. -/
def win10_highContrast : OsEnv :=
  { win10_19041 with highContrastFlags := 0x1 }

/-- The globals after `Initialize` succeeded under `win10_19041`. -/
def supportedState : ThemeState :=
  { SetPreferredAppMode := 0x7FE00135
    FlushMenuThemes := 0x7FE00136
    RefreshImmersiveColorPolicyState := 0x7FE00104
    ShouldAppsUseDarkMode := 0x7FE00132
    AllowDarkModeForWindow := 0x7FE00133
    g_darkModeSupported := true
    g_buildNumber := 19041 }

/-- Globals with the flag true although two pointers are null: the policy
refresh and the dark-mode query. -/
def partialState : ThemeState :=
  { supportedState with
    RefreshImmersiveColorPolicyState := 0
    ShouldAppsUseDarkMode := 0 }

/-- The environment `win10_19041` reporting the raw build `0xF0004563`: flag bits
set in the top four bits, 17763 below them. -/
def win10_rawF0004563 : OsEnv :=
  { win10_19041 with ntBuild := 0xF0004563 }

/-- The environment `win10_19041` reporting the raw build `0x10000000`: above
17763 as a raw value, 0 once the top four bits are cleared. -/
def win10_raw10000000 : OsEnv :=
  { win10_19041 with ntBuild := 0x10000000 }

/-- The environment `win10_raw10000000` reporting major version 6: a version
that is rejected. -/
def win6_raw10000000 : OsEnv :=
  { win10_raw10000000 with ntMajor := 6 }

end DarkMode

/-! ## `Utf8FromUtf16` -/

/-- Arguments of one call
`WideCharToMultiByte(CP_UTF8, WC_ERR_INVALID_CHARS, lpWideCharStr, cchWideChar,
lpMultiByteStr, cbMultiByte, nullptr, nullptr)`: the source string (its code
units before the NUL), the two sizes, and whether a destination buffer is
passed. -/
structure WideCharToMultiByteArgs where
  lpWideCharStr : List Nat
  cchWideChar : Int
  hasBuffer : Bool
  cbMultiByte : Int
  deriving DecidableEq, Repr

/-- The environment of `Utf8FromUtf16`: the answer of `WideCharToMultiByte` to a
call (its `int` return value and the bytes it stores into the destination
buffer) and the value of `std::string::max_size()`. -/
structure ConvEnv where
  WideCharToMultiByte : WideCharToMultiByteArgs → Int × List Nat
  max_size : Nat

/-- One observable step of `Utf8FromUtf16`. -/
inductive ConvStep where
  | WideCharToMultiByte (args : WideCharToMultiByteArgs)
  | resize (n : Nat)
  deriving DecidableEq, Repr

/-- Conversion of an `int` to `unsigned int` (32 bits). -/
def toUnsignedInt (i : Int) : Nat := (i % 4294967296).toNat

/-- Conversion of an integer value to `int` (32 bits, two's complement). -/
def toInt (i : Int) : Int :=
  if i % 4294967296 < 2147483648 then i % 4294967296 else i % 4294967296 - 4294967296

/-- The bytes of a buffer after `written` has been stored at its start. -/
def storeAt (buffer written : List Nat) : List Nat :=
  (written ++ buffer.drop written.length).take buffer.length

/-- The length query of `Utf8FromUtf16`: source length `-1`, no buffer, size 0. -/
def lengthQuery (cs : List Nat) : WideCharToMultiByteArgs :=
  { lpWideCharStr := cs, cchWideChar := -1, hasBuffer := false, cbMultiByte := 0 }

/-- The initialiser of `target_length`: the result of the length query minus 1,
stored in an `unsigned int`. -/
def targetLength (env : ConvEnv) (cs : List Nat) : Nat :=
  toUnsignedInt ((env.WideCharToMultiByte (lengthQuery cs)).1 - 1)

/-- The conversion call of `Utf8FromUtf16`: source length `(int)wcslen(..)`, the
buffer of the string, and `target_length` passed as the `int` buffer size. -/
def conversionCall (env : ConvEnv) (cs : List Nat) : WideCharToMultiByteArgs :=
  { lpWideCharStr := cs, cchWideChar := toInt cs.length, hasBuffer := true,
    cbMultiByte := toInt (targetLength env cs) }

/-- Body of `Utf8FromUtf16`; `none` is the null pointer.  The string returned and
the steps taken, oldest first. -/
def Utf8FromUtf16 (env : ConvEnv) (utf16_string : Option (List Nat)) :
    List Nat × List ConvStep :=
  match utf16_string with
  | none => ([], [])
  | some cs =>
    let target_length := targetLength env cs
    let utf8_string : List Nat := []
    if target_length = 0 ∨ target_length > env.max_size then
      (utf8_string, [ConvStep.WideCharToMultiByte (lengthQuery cs)])
    else
      let utf8_string := List.replicate target_length 0
      let answer := env.WideCharToMultiByte (conversionCall env cs)
      let converted_length := answer.1
      let utf8_string := storeAt utf8_string answer.2
      let steps :=
        [ConvStep.WideCharToMultiByte (lengthQuery cs), ConvStep.resize target_length,
         ConvStep.WideCharToMultiByte (conversionCall env cs)]
      if converted_length = 0 then ([], steps) else (utf8_string, steps)

/-- The value of `std::string::max_size()` in a 64-bit build. -/
def maxSize64 : Nat := 2 ^ 63 - 1

/-- The UTF-8 bytes of one code unit of the basic plane. -/
def utf8Unit (c : Nat) : List Nat :=
  if c < 0x80 then [c]
  else if c < 0x800 then [0xC0 + c / 64, 0x80 + c % 64]
  else [0xE0 + c / 4096, 0x80 + c / 64 % 64, 0x80 + c % 64]

/-- A code unit that is a surrogate. -/
def isSurrogate (c : Nat) : Bool := 0xD800 ≤ c && c < 0xE000

/-- An environment after the documented behaviour of `WideCharToMultiByte` on
strings of the basic plane: a surrogate without its pair, an empty source or a
negative buffer size makes the call return 0; a source length of `-1` counts the
terminator; without a buffer the call returns the size needed. -/
def winConv : ConvEnv :=
  { WideCharToMultiByte := fun a =>
      let units := if a.cchWideChar = -1 then a.lpWideCharStr ++ [0] else a.lpWideCharStr
      let bytes := units.flatMap utf8Unit
      if a.cchWideChar = 0 ∨ a.cbMultiByte < 0 ∨ units.any isSurrogate then (0, [])
      else if a.cbMultiByte = 0 then ((bytes.length : Int), [])
      else if a.cbMultiByte < bytes.length then (0, [])
      else ((bytes.length : Int), bytes)
    max_size := maxSize64 }

namespace DarkMode

/-- Clearing the top four bits of a 32-bit value with `&= ~0xF0000000` leaves the
value modulo `2 ^ 28`. -/
theorem and_not32_mask (x : Nat) : x &&& not32 0xF0000000 = x % 2 ^ 28 := by
  have h : not32 0xF0000000 = 2 ^ 28 - 1 := by decide
  rw [h, Nat.and_pow_two_sub_one_eq_mod]

/-- A 32-bit value with its top four bits cleared is the value modulo `2 ^ 28`. -/
theorem toDWORD_mod (n : Nat) : toDWORD n % 2 ^ 28 = n % 2 ^ 28 := by
  unfold toDWORD
  exact Nat.mod_mod_of_dvd n (by decide)

/-- The wide literal is the string `ImmersiveColorSet`. -/
theorem ImmersiveColorSet_eq :
    ImmersiveColorSet = "ImmersiveColorSet".toList.map Char.toNat := by
  decide

/-- The function `wcscmp` returns 0 exactly on equal strings. -/
theorem wcscmp_eq_zero_iff (a b : List Nat) : wcscmp a b = 0 ↔ a = b := by
  induction a generalizing b with
  | nil => cases b <;> simp [wcscmp]
  | cons x xs ih =>
    cases b with
    | nil => simp [wcscmp]
    | cons y ys =>
      unfold wcscmp
      by_cases h1 : x < y
      · simp [h1]; omega
      · by_cases h2 : y < x
        · simp [h1, h2]; omega
        · have : x = y := by omega
          simp [h1, this, ih]

/-- Under the build-19041 environment `Initialize` resolves all five pointers,
stores build 19041 and enables support. -/
theorem Initialize_win10_19041 : Initialize win10_19041 initialState = supportedState := by
  decide

/-- C1. From the initial globals (flag false, all pointers null), `Initialize`
leaves the support flag true exactly when the version query resolves, the major
version is 10, the minor version is 0, the build number with its top four bits
cleared is at least 17763, the theming library loads and each of the ordinals
104, 132, 133, 135 and 136 resolves to a non-null entry point. -/
theorem Initialize_supported_iff (env : OsEnv) :
    (Initialize env initialState).g_darkModeSupported = true ↔
      versionQuery env ≠ 0 ∧ toDWORD env.ntMajor = 10 ∧ toDWORD env.ntMinor = 0 ∧
      17763 ≤ toDWORD env.ntBuild % 2 ^ 28 ∧ uxtheme env ≠ 0 ∧
      env.GetProcAddress (uxtheme env) (.byOrdinal 104) ≠ 0 ∧
      env.GetProcAddress (uxtheme env) (.byOrdinal 132) ≠ 0 ∧
      env.GetProcAddress (uxtheme env) (.byOrdinal 133) ≠ 0 ∧
      env.GetProcAddress (uxtheme env) (.byOrdinal 135) ≠ 0 ∧
      env.GetProcAddress (uxtheme env) (.byOrdinal 136) ≠ 0 := by
  unfold Initialize versionQuery uxtheme
  simp only [and_not32_mask]
  generalize env.GetProcAddress (env.GetModuleHandleW "ntdll.dll")
    (.byName "RtlGetNtVersionNumbers") = v
  generalize env.LoadLibraryExW "uxtheme.dll" LOAD_LIBRARY_SEARCH_SYSTEM32 = u
  generalize env.GetProcAddress u (.byOrdinal 104) = p104
  generalize env.GetProcAddress u (.byOrdinal 132) = p132
  generalize env.GetProcAddress u (.byOrdinal 133) = p133
  generalize env.GetProcAddress u (.byOrdinal 135) = p135
  generalize env.GetProcAddress u (.byOrdinal 136) = p136
  generalize toDWORD env.ntBuild % 2 ^ 28 = b
  generalize toDWORD env.ntMajor = M
  generalize toDWORD env.ntMinor = m
  split_ifs <;> simp_all [initialState]
  all_goals omega

/-- Running `Initialize` again under the same environment changes nothing. -/
theorem Initialize_twice (env : OsEnv) (s : ThemeState) :
    Initialize env (Initialize env s) = Initialize env s := by
  unfold Initialize
  simp only [and_not32_mask]
  generalize env.GetProcAddress (env.GetModuleHandleW "ntdll.dll")
    (.byName "RtlGetNtVersionNumbers") = v
  generalize env.LoadLibraryExW "uxtheme.dll" LOAD_LIBRARY_SEARCH_SYSTEM32 = u
  generalize env.GetProcAddress u (.byOrdinal 104) = p104
  generalize env.GetProcAddress u (.byOrdinal 132) = p132
  generalize env.GetProcAddress u (.byOrdinal 133) = p133
  generalize env.GetProcAddress u (.byOrdinal 135) = p135
  generalize env.GetProcAddress u (.byOrdinal 136) = p136
  generalize toDWORD env.ntBuild % 2 ^ 28 = b
  generalize toDWORD env.ntMajor = M
  generalize toDWORD env.ntMinor = m
  split_ifs <;> simp_all

/-- A call of `Initialize` that starts with the flag false ends with the flag
true only if the five pointers it leaves are non-null. -/
theorem Initialize_enables_resolved (env : OsEnv) (s : ThemeState)
    (hs : s.g_darkModeSupported = false)
    (h : (Initialize env s).g_darkModeSupported = true) :
    AllResolved (Initialize env s) := by
  revert h
  unfold Initialize AllResolved
  simp only [and_not32_mask]
  generalize env.GetProcAddress (env.GetModuleHandleW "ntdll.dll")
    (.byName "RtlGetNtVersionNumbers") = v
  generalize env.LoadLibraryExW "uxtheme.dll" LOAD_LIBRARY_SEARCH_SYSTEM32 = u
  generalize env.GetProcAddress u (.byOrdinal 104) = p104
  generalize env.GetProcAddress u (.byOrdinal 132) = p132
  generalize env.GetProcAddress u (.byOrdinal 133) = p133
  generalize env.GetProcAddress u (.byOrdinal 135) = p135
  generalize env.GetProcAddress u (.byOrdinal 136) = p136
  split_ifs <;> simp_all

/-- Under one environment, any positive number of `Initialize` calls leaves what
the first call leaves. -/
theorem initializeTimes_succ (env : OsEnv) (n : Nat) (s : ThemeState) :
    initializeTimes env (n + 1) s = Initialize env s := by
  induction n generalizing s with
  | zero => rfl
  | succ k ih =>
    show initializeTimes env (k + 1) (Initialize env s) = Initialize env s
    rw [ih, Initialize_twice]

/-- C5. `Initialize` is idempotent: under one environment and from every
starting state, running it twice leaves exactly the globals that running it once
leaves (flag, build number and the five pointers). -/
theorem Initialize_idempotent (env : OsEnv) (s : ThemeState) :
    Initialize env (Initialize env s) = Initialize env s :=
  Initialize_twice env s

/-- C6, as stated, fails: after one `Initialize` under an environment that resolves
all five ordinals and a second one under an environment where ordinal 104 is
missing, the flag is true while `RefreshImmersiveColorPolicyState` is null. -/
theorem initializeEach_flag_with_null_pointer :
    (initializeEach [win10_19041, win10_no104] initialState).g_darkModeSupported = true ∧
      (initializeEach [win10_19041, win10_no104]
        initialState).RefreshImmersiveColorPolicyState = 0 ∧
      ¬ AllResolved (initializeEach [win10_19041, win10_no104] initialState) := by
  decide

/-- C6, amended. In every state reached from the initial state by any number of
`Initialize` calls that all observe the same environment, the support flag is true
only if all five entry-point pointers are non-null. -/
theorem initializeTimes_flag_resolved (env : OsEnv) (n : Nat)
    (h : (initializeTimes env n initialState).g_darkModeSupported = true) :
    AllResolved (initializeTimes env n initialState) := by
  cases n with
  | zero => simp [initializeTimes, initialState] at h
  | succ k =>
    rw [initializeTimes_succ] at h ⊢
    exact Initialize_enables_resolved env initialState rfl h

/-- Witness of C6 amended: three calls under the build-19041 environment. -/
theorem initializeTimes_flag_resolved_witness :
    (initializeTimes win10_19041 3 initialState).g_darkModeSupported = true ∧
      AllResolved (initializeTimes win10_19041 3 initialState) :=
  ⟨by decide, initializeTimes_flag_resolved win10_19041 3 (by decide)⟩

/-- C2, as stated, fails: with the flag true, a non-null handle and high
contrast active, `EnableForWindow` still calls `AllowDarkModeForWindow`, passing
`false`. -/
theorem EnableForWindow_highContrast_calls_setter :
    supportedState.g_darkModeSupported = true ∧ (5 : Nat) ≠ 0 ∧
      IsHighContrast win10_highContrast = true ∧
      (EnableForWindow win10_highContrast supportedState 5).calls =
        [OsCall.ShouldAppsUseDarkMode 0x7FE00132,
         OsCall.SystemParametersInfoW_GETHIGHCONTRAST,
         OsCall.AllowDarkModeForWindow 0x7FE00133 5 false,
         OsCall.DwmSetWindowAttribute 5 20 0 4] ∧
      ¬ (∀ c ∈ (EnableForWindow win10_highContrast supportedState 5).calls,
          c.isAllowDarkModeForWindow = false) := by
  decide

/-- C2, amended. With the flag true, a non-null handle and high contrast active,
`EnableForWindow` never passes `true` to `AllowDarkModeForWindow`, whatever the
dark-mode query returns: the only call of the setter it makes, made when the
setter pointer is non-null, is `AllowDarkModeForWindow(h, false)`. -/
theorem EnableForWindow_highContrast_setter_false (env : OsEnv) (s : ThemeState) (h : Nat)
    (hs : s.g_darkModeSupported = true) (hh : h ≠ 0) (hc : IsHighContrast env = true) :
    (EnableForWindow env s h).calls.filter OsCall.isAllowDarkModeForWindow =
      if s.AllowDarkModeForWindow ≠ 0 then
        [OsCall.AllowDarkModeForWindow s.AllowDarkModeForWindow h false]
      else [] := by
  unfold EnableForWindow shouldUseDark
  simp only [hs, hh, hc]
  by_cases hq : s.ShouldAppsUseDarkMode = 0 <;> by_cases ha : s.AllowDarkModeForWindow = 0 <;>
    cases hd : env.shouldAppsUseDarkMode <;>
    simp [hq, ha, List.filter, OsCall.isAllowDarkModeForWindow]

/-- Witness of C2 amended: the high-contrast environment and the resolved state. -/
theorem EnableForWindow_highContrast_setter_false_witness :
    (EnableForWindow win10_highContrast supportedState 5).calls.filter
        OsCall.isAllowDarkModeForWindow =
      if supportedState.AllowDarkModeForWindow ≠ 0 then
        [OsCall.AllowDarkModeForWindow supportedState.AllowDarkModeForWindow 5 false]
      else [] :=
  EnableForWindow_highContrast_setter_false win10_highContrast supportedState 5
    (by decide) (by decide) (by decide)

/-- C3. `EnableForWindow(h)` makes no call when the flag is false or `h` is null.
Otherwise, with all five entry points resolved, after its queries (the dark-mode
query and, when that answers true, the high-contrast query) it calls
`AllowDarkModeForWindow(h, d)` and then sets attribute 20 of `h` to `d`, where
`d` is the dark-mode answer and not high contrast; with dark mode preferred and
no high contrast both receive true. -/
theorem EnableForWindow_calls (env : OsEnv) (s : ThemeState) (h : Nat) :
    ((s.g_darkModeSupported = false ∨ h = 0) → (EnableForWindow env s h).calls = []) ∧
    (s.g_darkModeSupported = true → h ≠ 0 → AllResolved s →
      (EnableForWindow env s h).calls =
        [OsCall.ShouldAppsUseDarkMode s.ShouldAppsUseDarkMode] ++
        (if env.shouldAppsUseDarkMode = true then
          [OsCall.SystemParametersInfoW_GETHIGHCONTRAST] else []) ++
        [OsCall.AllowDarkModeForWindow s.AllowDarkModeForWindow h
            (env.shouldAppsUseDarkMode && !IsHighContrast env),
         OsCall.DwmSetWindowAttribute h 20
            (if (env.shouldAppsUseDarkMode && !IsHighContrast env) = true then 1 else 0) 4]) ∧
    (s.g_darkModeSupported = true → h ≠ 0 → AllResolved s →
      env.shouldAppsUseDarkMode = true → IsHighContrast env = false →
      (EnableForWindow env s h).calls =
        [OsCall.ShouldAppsUseDarkMode s.ShouldAppsUseDarkMode,
         OsCall.SystemParametersInfoW_GETHIGHCONTRAST,
         OsCall.AllowDarkModeForWindow s.AllowDarkModeForWindow h true,
         OsCall.DwmSetWindowAttribute h 20 1 4]) := by
  refine ⟨?_, ?_, ?_⟩
  · intro h0
    unfold EnableForWindow
    simp [h0]
  · intro hs hh hr
    obtain ⟨_, _, _, hq, ha⟩ := hr
    unfold EnableForWindow shouldUseDark toBOOL DWMWA_USE_IMMERSIVE_DARK_MODE
    cases hd : env.shouldAppsUseDarkMode <;> simp [hs, hh, hq, ha]
  · intro hs hh hr hd hc
    obtain ⟨_, _, _, hq, ha⟩ := hr
    unfold EnableForWindow shouldUseDark toBOOL DWMWA_USE_IMMERSIVE_DARK_MODE
    simp [hs, hh, hq, ha, hd, hc]

/-- Witness of C3: the build-19041 scenario, dark mode preferred, no high
contrast, window handle 5. -/
theorem EnableForWindow_calls_witness :
    (supportedState.g_darkModeSupported = true ∧ (5 : Nat) ≠ 0 ∧ AllResolved supportedState ∧
      win10_19041.shouldAppsUseDarkMode = true ∧ IsHighContrast win10_19041 = false) ∧
    (EnableForWindow win10_19041 supportedState 5).calls =
      [OsCall.ShouldAppsUseDarkMode supportedState.ShouldAppsUseDarkMode,
       OsCall.SystemParametersInfoW_GETHIGHCONTRAST,
       OsCall.AllowDarkModeForWindow supportedState.AllowDarkModeForWindow 5 true,
       OsCall.DwmSetWindowAttribute 5 20 1 4] ∧
    (EnableForWindow win10_19041 initialState 5).calls = [] :=
  ⟨by decide,
   (EnableForWindow_calls win10_19041 supportedState 5).2.2 (by decide) (by decide)
      (by decide) (by decide) (by decide),
   (EnableForWindow_calls win10_19041 initialState 5).1 (Or.inl (by decide))⟩

/-- C4. `HandleThemeChange(payload)` returns true exactly when the flag is true and
the payload is non-null and names `ImmersiveColorSet`.  Unsupported, it makes no
call and returns false.  Supported with all entry points resolved, it calls the
policy refresh exactly once and, after it, the menu-theme flush exactly when it
returns true; a null payload and any other payload refresh the policy, flush
nothing and return false. -/
theorem HandleThemeChange_behaviour (env : OsEnv) (s : ThemeState) (lParam : Nat) :
    ((HandleThemeChange env s lParam).result = true ↔
      s.g_darkModeSupported = true ∧ lParam ≠ 0 ∧
        env.wideStringAt lParam = ImmersiveColorSet) ∧
    (s.g_darkModeSupported = false →
      (HandleThemeChange env s lParam).calls = [] ∧
        (HandleThemeChange env s lParam).result = false) ∧
    (s.g_darkModeSupported = true → AllResolved s →
      (HandleThemeChange env s lParam).calls =
        [OsCall.RefreshImmersiveColorPolicyState s.RefreshImmersiveColorPolicyState] ++
        (if (HandleThemeChange env s lParam).result = true then
          [OsCall.FlushMenuThemes s.FlushMenuThemes] else [])) ∧
    (s.g_darkModeSupported = true → AllResolved s →
      (lParam = 0 ∨ env.wideStringAt lParam ≠ ImmersiveColorSet) →
      (HandleThemeChange env s lParam).calls =
          [OsCall.RefreshImmersiveColorPolicyState s.RefreshImmersiveColorPolicyState] ∧
        (HandleThemeChange env s lParam).result = false) := by
  unfold HandleThemeChange
  simp only [wcscmp_eq_zero_iff]
  cases hs : s.g_darkModeSupported
  · simp
  · refine ⟨?_, ?_, ?_, ?_⟩
    · by_cases hl : lParam = 0 <;>
        by_cases hw : env.wideStringAt lParam = ImmersiveColorSet <;> simp [hl, hw]
    · simp
    · rintro - ⟨_, hf, hr, _, _⟩
      by_cases hl : lParam = 0 <;>
        by_cases hw : env.wideStringAt lParam = ImmersiveColorSet <;> simp [hl, hw, hf, hr]
    · rintro - ⟨_, hf, hr, _, _⟩ hp
      by_cases hl : lParam = 0
      · simp [hl, hr]
      · have hw : env.wideStringAt lParam ≠ ImmersiveColorSet := by
          rcases hp with hp | hp
          · exact absurd hp hl
          · exact hp
        simp [hl, hw, hr]

/-- Witness of C4: a payload naming `ImmersiveColorSet`, another payload, and the
unsupported initial state. -/
theorem HandleThemeChange_behaviour_witness :
    (HandleThemeChange win10_19041 supportedState 0x1000).calls =
      [OsCall.RefreshImmersiveColorPolicyState
          supportedState.RefreshImmersiveColorPolicyState] ++
      (if (HandleThemeChange win10_19041 supportedState 0x1000).result = true then
        [OsCall.FlushMenuThemes supportedState.FlushMenuThemes] else []) ∧
    ((HandleThemeChange win10_19041 supportedState 0x2000).calls =
        [OsCall.RefreshImmersiveColorPolicyState
          supportedState.RefreshImmersiveColorPolicyState] ∧
      (HandleThemeChange win10_19041 supportedState 0x2000).result = false) ∧
    ((HandleThemeChange win10_19041 initialState 0x1000).calls = [] ∧
      (HandleThemeChange win10_19041 initialState 0x1000).result = false) :=
  ⟨(HandleThemeChange_behaviour win10_19041 supportedState 0x1000).2.2.1
      (by decide) (by decide),
   (HandleThemeChange_behaviour win10_19041 supportedState 0x2000).2.2.2
      (by decide) (by decide) (Or.inr (by decide)),
   (HandleThemeChange_behaviour win10_19041 initialState 0x1000).2.1 (by decide)⟩

/-- C7. `EnableForApp` makes no call when the flag is false.  With the flag true and
all entry points resolved it makes exactly three calls, in this order:
`SetPreferredAppMode(AllowDark)`, the policy refresh, the menu-theme flush.  It
leaves the globals as they were. -/
theorem EnableForApp_calls (s : ThemeState) :
    (s.g_darkModeSupported = false → (EnableForApp s).calls = []) ∧
    (s.g_darkModeSupported = true → AllResolved s →
      (EnableForApp s).calls =
        [OsCall.SetPreferredAppMode s.SetPreferredAppMode PreferredAppMode.AllowDark,
         OsCall.RefreshImmersiveColorPolicyState s.RefreshImmersiveColorPolicyState,
         OsCall.FlushMenuThemes s.FlushMenuThemes]) ∧
    (EnableForApp s).state = s := by
  unfold EnableForApp
  cases hs : s.g_darkModeSupported
  · simp
  · refine ⟨by simp, ?_, by simp⟩
    rintro - ⟨h1, h2, h3, _, _⟩
    simp [h1, h2, h3]

/-- Witness of C7: the resolved state and the initial state. -/
theorem EnableForApp_calls_witness :
    (EnableForApp initialState).calls = [] ∧
    (EnableForApp supportedState).calls =
      [OsCall.SetPreferredAppMode supportedState.SetPreferredAppMode
          PreferredAppMode.AllowDark,
       OsCall.RefreshImmersiveColorPolicyState
          supportedState.RefreshImmersiveColorPolicyState,
       OsCall.FlushMenuThemes supportedState.FlushMenuThemes] :=
  ⟨(EnableForApp_calls initialState).1 (by decide),
   (EnableForApp_calls supportedState).2.1 (by decide) (by decide)⟩

/-- C10. In every state of the globals, the flag true with any subset of the
pointers null included, and for every argument, no call of `EnableForApp`,
`EnableForWindow` or `HandleThemeChange` goes through a null pointer.  With the
flag true, a null pointer removes exactly its own call from the calls made with
it resolved; a null dark-mode query makes the dark value passed on false. -/
theorem calls_never_through_null (env : OsEnv) (s : ThemeState) (h lParam : Nat) :
    (∀ c ∈ (EnableForApp s).calls, c.calledThrough ≠ some 0) ∧
    (∀ c ∈ (EnableForWindow env s h).calls, c.calledThrough ≠ some 0) ∧
    (∀ c ∈ (HandleThemeChange env s lParam).calls, c.calledThrough ≠ some 0) ∧
    (s.g_darkModeSupported = true →
      (EnableForApp s).calls =
        [OsCall.SetPreferredAppMode s.SetPreferredAppMode PreferredAppMode.AllowDark,
         OsCall.RefreshImmersiveColorPolicyState s.RefreshImmersiveColorPolicyState,
         OsCall.FlushMenuThemes s.FlushMenuThemes].filter OsCall.notThroughNull) ∧
    (s.g_darkModeSupported = true →
      (HandleThemeChange env s lParam).calls =
        ([OsCall.RefreshImmersiveColorPolicyState s.RefreshImmersiveColorPolicyState] ++
          (if (HandleThemeChange env s lParam).result = true then
            [OsCall.FlushMenuThemes s.FlushMenuThemes] else [])).filter
          OsCall.notThroughNull) ∧
    (s.g_darkModeSupported = true → h ≠ 0 → s.ShouldAppsUseDarkMode ≠ 0 →
      (EnableForWindow env s h).calls =
        [OsCall.ShouldAppsUseDarkMode s.ShouldAppsUseDarkMode] ++
        (if env.shouldAppsUseDarkMode = true then
          [OsCall.SystemParametersInfoW_GETHIGHCONTRAST] else []) ++
        [OsCall.AllowDarkModeForWindow s.AllowDarkModeForWindow h
            (env.shouldAppsUseDarkMode && !IsHighContrast env)].filter
          OsCall.notThroughNull ++
        [OsCall.DwmSetWindowAttribute h 20
            (if (env.shouldAppsUseDarkMode && !IsHighContrast env) = true then 1 else 0) 4]) ∧
    (s.g_darkModeSupported = true → h ≠ 0 → s.ShouldAppsUseDarkMode = 0 →
      (EnableForWindow env s h).calls =
        [OsCall.AllowDarkModeForWindow s.AllowDarkModeForWindow h false].filter
          OsCall.notThroughNull ++
        [OsCall.DwmSetWindowAttribute h 20 0 4]) := by
  refine ⟨?_, ?_, ?_, ?_, ?_, ?_, ?_⟩
  · unfold EnableForApp
    cases hs : s.g_darkModeSupported <;>
      by_cases h1 : s.SetPreferredAppMode = 0 <;>
      by_cases h2 : s.RefreshImmersiveColorPolicyState = 0 <;>
      by_cases h3 : s.FlushMenuThemes = 0 <;>
      simp [h1, h2, h3, OsCall.calledThrough]
  · unfold EnableForWindow shouldUseDark
    cases hs : s.g_darkModeSupported <;>
      by_cases hh : h = 0 <;>
      by_cases hq : s.ShouldAppsUseDarkMode = 0 <;>
      by_cases ha : s.AllowDarkModeForWindow = 0 <;>
      cases hd : env.shouldAppsUseDarkMode <;>
      simp [hh, hq, ha, OsCall.calledThrough]
  · unfold HandleThemeChange
    cases hs : s.g_darkModeSupported <;>
      by_cases h2 : s.RefreshImmersiveColorPolicyState = 0 <;>
      by_cases h3 : s.FlushMenuThemes = 0 <;>
      by_cases hl : lParam = 0 <;>
      by_cases hw : wcscmp (env.wideStringAt lParam) ImmersiveColorSet = 0 <;>
      simp [h2, h3, hl, hw, OsCall.calledThrough]
  · intro hs
    unfold EnableForApp
    by_cases h1 : s.SetPreferredAppMode = 0 <;>
      by_cases h2 : s.RefreshImmersiveColorPolicyState = 0 <;>
      by_cases h3 : s.FlushMenuThemes = 0 <;>
      simp [hs, h1, h2, h3, List.filter_cons, OsCall.notThroughNull, OsCall.calledThrough]
  · intro hs
    unfold HandleThemeChange
    by_cases h2 : s.RefreshImmersiveColorPolicyState = 0 <;>
      by_cases h3 : s.FlushMenuThemes = 0 <;>
      by_cases hl : lParam = 0 <;>
      by_cases hw : wcscmp (env.wideStringAt lParam) ImmersiveColorSet = 0 <;>
      simp [hs, h2, h3, hl, hw, List.filter_cons, OsCall.notThroughNull, OsCall.calledThrough]
  · intro hs hh hq
    unfold EnableForWindow shouldUseDark toBOOL DWMWA_USE_IMMERSIVE_DARK_MODE
    by_cases ha : s.AllowDarkModeForWindow = 0 <;>
      cases hd : env.shouldAppsUseDarkMode <;>
      simp [hs, hh, hq, ha, List.filter_cons, OsCall.notThroughNull, OsCall.calledThrough]
  · intro hs hh hq
    unfold EnableForWindow shouldUseDark toBOOL DWMWA_USE_IMMERSIVE_DARK_MODE
    by_cases ha : s.AllowDarkModeForWindow = 0 <;>
      simp [hs, hh, hq, ha, List.filter_cons, OsCall.notThroughNull, OsCall.calledThrough]

/-- Witness of C10: the flag true with the policy refresh and the dark-mode query
null. -/
theorem calls_never_through_null_witness :
    (partialState.g_darkModeSupported = true ∧ partialState.ShouldAppsUseDarkMode = 0) ∧
    (EnableForApp partialState).calls =
      [OsCall.SetPreferredAppMode partialState.SetPreferredAppMode
          PreferredAppMode.AllowDark,
       OsCall.RefreshImmersiveColorPolicyState
          partialState.RefreshImmersiveColorPolicyState,
       OsCall.FlushMenuThemes partialState.FlushMenuThemes].filter
        OsCall.notThroughNull ∧
    (EnableForWindow win10_19041 partialState 5).calls =
      [OsCall.AllowDarkModeForWindow partialState.AllowDarkModeForWindow 5 false].filter
        OsCall.notThroughNull ++
      [OsCall.DwmSetWindowAttribute 5 20 0 4] ∧
    (∀ c ∈ (HandleThemeChange win10_19041 partialState 0x1000).calls,
      c.calledThrough ≠ some 0) :=
  ⟨by decide,
   (calls_never_through_null win10_19041 partialState 5 0x1000).2.2.2.1 (by decide),
   (calls_never_through_null win10_19041 partialState 5 0x1000).2.2.2.2.2.2
      (by decide) (by decide) (by decide),
   (calls_never_through_null win10_19041 partialState 5 0x1000).2.2.1⟩

end DarkMode

/-! ## Theorems: `Utf8FromUtf16` -/

/-- Storing into a buffer keeps its length. -/
theorem storeAt_length (buffer written : List Nat) :
    (storeAt buffer written).length = buffer.length := by
  unfold storeAt
  simp only [List.length_take, List.length_append, List.length_drop]
  omega

/-- The null pointer gives the empty string, with no call made. -/
theorem Utf8FromUtf16_null (env : ConvEnv) : Utf8FromUtf16 env none = ([], []) := rfl

/-- A length query answered 0 leaves `target_length` at `0xFFFFFFFF`. -/
theorem targetLength_of_query_zero (env : ConvEnv) (cs : List Nat)
    (h : (env.WideCharToMultiByte (lengthQuery cs)).1 = 0) :
    targetLength env cs = 4294967295 := by
  unfold targetLength toUnsignedInt
  rw [h]
  decide

/-- A length query answered 1 (an empty source) gives the empty string at the
guard. -/
theorem Utf8FromUtf16_query_one (env : ConvEnv) (cs : List Nat)
    (h : (env.WideCharToMultiByte (lengthQuery cs)).1 = 1) :
    Utf8FromUtf16 env (some cs) = ([], [ConvStep.WideCharToMultiByte (lengthQuery cs)]) := by
  have ht : targetLength env cs = 0 := by
    unfold targetLength toUnsignedInt
    rw [h]
    decide
  unfold Utf8FromUtf16
  simp [ht]

/-- With a 64-bit `max_size`, a length query answered 0 does not end the function
at the guard: the string is resized to `0xFFFFFFFF` bytes, the conversion call is
made with buffer size `-1`, and the result is empty exactly when that call is
answered 0 as well. -/
theorem Utf8FromUtf16_of_query_zero (env : ConvEnv) (cs : List Nat)
    (h : (env.WideCharToMultiByte (lengthQuery cs)).1 = 0)
    (hmax : 4294967295 ≤ env.max_size) :
    (Utf8FromUtf16 env (some cs)).2 =
        [ConvStep.WideCharToMultiByte (lengthQuery cs), ConvStep.resize 4294967295,
         ConvStep.WideCharToMultiByte
          { lpWideCharStr := cs, cchWideChar := toInt cs.length, hasBuffer := true,
            cbMultiByte := -1 }] ∧
      ((Utf8FromUtf16 env (some cs)).1 = [] ↔
        (env.WideCharToMultiByte (conversionCall env cs)).1 = 0) := by
  have ht := targetLength_of_query_zero env cs h
  have hc : conversionCall env cs =
      { lpWideCharStr := cs, cchWideChar := toInt cs.length, hasBuffer := true,
        cbMultiByte := -1 } := by
    unfold conversionCall
    rw [ht]
    rfl
  have hg : ¬ (targetLength env cs = 0 ∨ targetLength env cs > env.max_size) := by
    rw [ht]; omega
  unfold Utf8FromUtf16
  simp only [hg, if_false, hc]
  by_cases h2 : (env.WideCharToMultiByte
      { lpWideCharStr := cs, cchWideChar := toInt cs.length, hasBuffer := true,
        cbMultiByte := -1 }).1 = 0
  · rw [if_pos h2]
    refine ⟨?_, fun _ => h2, fun _ => rfl⟩
    show [ConvStep.WideCharToMultiByte (lengthQuery cs),
      ConvStep.resize (targetLength env cs), _] = _
    rw [ht]
  · rw [if_neg h2]
    refine ⟨?_, fun hnil => ?_, fun h0 => absurd h0 h2⟩
    · show [ConvStep.WideCharToMultiByte (lengthQuery cs),
        ConvStep.resize (targetLength env cs), _] = _
      rw [ht]
    · exfalso
      have hl := storeAt_length (List.replicate (targetLength env cs) 0)
        (env.WideCharToMultiByte
          { lpWideCharStr := cs, cchWideChar := toInt cs.length, hasBuffer := true,
            cbMultiByte := -1 }).2
      have hnil2 : storeAt (List.replicate (targetLength env cs) 0)
          (env.WideCharToMultiByte
            { lpWideCharStr := cs, cchWideChar := toInt cs.length, hasBuffer := true,
              cbMultiByte := -1 }).2 = [] := hnil
      rw [hnil2, List.length_replicate, ht, List.length_nil] at hl
      omega

/-- Witness of `Utf8FromUtf16_of_query_zero`: a lone surrogate. -/
theorem Utf8FromUtf16_of_query_zero_witness :
    (Utf8FromUtf16 winConv (some [0xD800])).2 =
        [ConvStep.WideCharToMultiByte (lengthQuery [0xD800]), ConvStep.resize 4294967295,
         ConvStep.WideCharToMultiByte
          { lpWideCharStr := [0xD800], cchWideChar := toInt ([0xD800] : List Nat).length,
            hasBuffer := true, cbMultiByte := -1 }] ∧
      ((Utf8FromUtf16 winConv (some [0xD800])).1 = [] ↔
        (winConv.WideCharToMultiByte (conversionCall winConv [0xD800])).1 = 0) :=
  Utf8FromUtf16_of_query_zero winConv [0xD800] (by decide) (by decide)

/-- Under `winConv` a two-letter string with an accent is converted byte for
byte: query, resize to 4 bytes, conversion. -/
theorem Utf8FromUtf16_winConv_sample :
    Utf8FromUtf16 winConv (some [72, 105, 0xE9]) =
      ([72, 105, 0xC3, 0xA9],
       [ConvStep.WideCharToMultiByte (lengthQuery [72, 105, 0xE9]), ConvStep.resize 4,
        ConvStep.WideCharToMultiByte
          { lpWideCharStr := [72, 105, 0xE9], cchWideChar := 3, hasBuffer := true,
            cbMultiByte := 4 }]) := by
  decide

/-- C9 at a failing input. The source is a lone surrogate and the length query is
answered 0: `target_length` is `0xFFFFFFFF`, not 0, the guard is not taken with a
64-bit `max_size`, and the function resizes the string to `0xFFFFFFFF` bytes and
makes the conversion call with buffer size `-1` before it returns. -/
theorem Utf8FromUtf16_failed_query_passes_guard :
    (winConv.WideCharToMultiByte (lengthQuery [0xD800])).1 = 0 ∧
      targetLength winConv [0xD800] = 4294967295 ∧
      ¬ (targetLength winConv [0xD800] = 0 ∨
          targetLength winConv [0xD800] > winConv.max_size) ∧
      Utf8FromUtf16 winConv (some [0xD800]) =
        ([],
         [ConvStep.WideCharToMultiByte (lengthQuery [0xD800]), ConvStep.resize 4294967295,
          ConvStep.WideCharToMultiByte
            { lpWideCharStr := [0xD800], cchWideChar := 1, hasBuffer := true,
              cbMultiByte := -1 }]) := by
  decide

/-! ## Theorems: build-number masking -/

namespace DarkMode

/-- Once the version query resolves, `Initialize` stores the reported build with
its top four bits cleared, whatever it decides afterwards. -/
theorem Initialize_buildNumber (env : OsEnv) (s : ThemeState) (hv : versionQuery env ≠ 0) :
    (Initialize env s).g_buildNumber = toDWORD env.ntBuild % 2 ^ 28 := by
  revert hv
  unfold Initialize versionQuery
  simp only [and_not32_mask]
  generalize env.GetProcAddress (env.GetModuleHandleW "ntdll.dll")
    (.byName "RtlGetNtVersionNumbers") = v
  intro hv
  split_ifs <;> simp_all

/-- A rejected version leaves every global but the build number as it was. -/
theorem Initialize_rejected (env : OsEnv) (s : ThemeState) (hv : versionQuery env ≠ 0)
    (hr : toDWORD env.ntMajor ≠ 10 ∨ toDWORD env.ntMinor ≠ 0 ∨
      toDWORD env.ntBuild % 2 ^ 28 < 17763) :
    Initialize env s = { s with g_buildNumber := toDWORD env.ntBuild % 2 ^ 28 } := by
  revert hv
  unfold Initialize versionQuery
  simp only [and_not32_mask]
  generalize env.GetProcAddress (env.GetModuleHandleW "ntdll.dll")
    (.byName "RtlGetNtVersionNumbers") = v
  intro hv
  rw [if_neg hv, if_pos hr]

/-- With the version accepted, the library loaded and the five ordinals resolved,
`Initialize` sets the flag. -/
theorem Initialize_accepted (env : OsEnv) (s : ThemeState) (hv : versionQuery env ≠ 0)
    (hM : toDWORD env.ntMajor = 10) (hm : toDWORD env.ntMinor = 0)
    (hb : 17763 ≤ toDWORD env.ntBuild % 2 ^ 28) (hl : uxtheme env ≠ 0)
    (h104 : env.GetProcAddress (uxtheme env) (.byOrdinal 104) ≠ 0)
    (h132 : env.GetProcAddress (uxtheme env) (.byOrdinal 132) ≠ 0)
    (h133 : env.GetProcAddress (uxtheme env) (.byOrdinal 133) ≠ 0)
    (h135 : env.GetProcAddress (uxtheme env) (.byOrdinal 135) ≠ 0)
    (h136 : env.GetProcAddress (uxtheme env) (.byOrdinal 136) ≠ 0) :
    (Initialize env s).g_darkModeSupported = true := by
  revert hv hl h104 h132 h133 h135 h136
  unfold Initialize versionQuery uxtheme
  simp only [and_not32_mask]
  generalize env.GetProcAddress (env.GetModuleHandleW "ntdll.dll")
    (.byName "RtlGetNtVersionNumbers") = v
  generalize env.LoadLibraryExW "uxtheme.dll" LOAD_LIBRARY_SEARCH_SYSTEM32 = u
  intro hv hl h104 h132 h133 h135 h136
  have hver : ¬ (toDWORD env.ntMajor ≠ 10 ∨ toDWORD env.ntMinor ≠ 0 ∨
      toDWORD env.ntBuild % 2 ^ 28 < 17763) := by
    rintro (h | h | h)
    · exact h hM
    · exact h hm
    · omega
  rw [if_neg hv, if_neg hver, if_neg hl]
  simp [h104, h132, h133, h135, h136]

/-- C11. Whenever the version query resolves, `g_buildNumber` after `Initialize`
is the reported 32-bit build modulo `2 ^ 28`, also when the version is rejected
(then nothing else changes).  The threshold 17763 is applied to the masked value:
with major 10, minor 0, the library loaded and the five ordinals resolved, a raw
build `0xF0004563` (masked 17763) sets the flag, while a raw build `0x10000000`
(masked 0, although at least 17763 as a raw value) leaves the flag as it was. -/
theorem Initialize_build_masking (env : OsEnv) (s : ThemeState)
    (hv : versionQuery env ≠ 0) :
    (Initialize env s).g_buildNumber = toDWORD env.ntBuild % 2 ^ 28 ∧
    (Initialize env s).g_buildNumber = env.ntBuild % 2 ^ 28 ∧
    ((toDWORD env.ntMajor ≠ 10 ∨ toDWORD env.ntMinor ≠ 0 ∨
        toDWORD env.ntBuild % 2 ^ 28 < 17763) →
      Initialize env s = { s with g_buildNumber := toDWORD env.ntBuild % 2 ^ 28 }) ∧
    (toDWORD env.ntMajor = 10 → toDWORD env.ntMinor = 0 → uxtheme env ≠ 0 →
      env.GetProcAddress (uxtheme env) (.byOrdinal 104) ≠ 0 →
      env.GetProcAddress (uxtheme env) (.byOrdinal 132) ≠ 0 →
      env.GetProcAddress (uxtheme env) (.byOrdinal 133) ≠ 0 →
      env.GetProcAddress (uxtheme env) (.byOrdinal 135) ≠ 0 →
      env.GetProcAddress (uxtheme env) (.byOrdinal 136) ≠ 0 →
      (env.ntBuild = 0xF0004563 →
        (Initialize env s).g_buildNumber = 17763 ∧
          (Initialize env s).g_darkModeSupported = true) ∧
      (env.ntBuild = 0x10000000 →
        17763 ≤ toDWORD env.ntBuild ∧
          (Initialize env s).g_buildNumber = 0 ∧
          (Initialize env s).g_darkModeSupported = s.g_darkModeSupported)) := by
  have hb := Initialize_buildNumber env s hv
  refine ⟨hb, ?_, Initialize_rejected env s hv, ?_⟩
  · rw [hb, toDWORD_mod]
  · intro hM hm hl h104 h132 h133 h135 h136
    constructor
    · intro hraw
      have hmask : toDWORD env.ntBuild % 2 ^ 28 = 17763 := by rw [hraw]; decide
      refine ⟨by rw [hb, hmask], ?_⟩
      exact Initialize_accepted env s hv hM hm (by omega) hl h104 h132 h133 h135 h136
    · intro hraw
      have hmask : toDWORD env.ntBuild % 2 ^ 28 = 0 := by rw [hraw]; decide
      have hrej := Initialize_rejected env s hv (Or.inr (Or.inr (by omega)))
      refine ⟨by rw [hraw]; decide, by rw [hb, hmask], ?_⟩
      rw [hrej]

/-- Witness of C11: the two raw builds of the claim under major 10, minor 0, and
the raw build `0x10000000` under a rejected major version. -/
theorem Initialize_build_masking_witness :
    (versionQuery win10_rawF0004563 ≠ 0 ∧ versionQuery win10_raw10000000 ≠ 0 ∧
      versionQuery win6_raw10000000 ≠ 0) ∧
    ((Initialize win10_rawF0004563 initialState).g_buildNumber = 17763 ∧
      (Initialize win10_rawF0004563 initialState).g_darkModeSupported = true) ∧
    (17763 ≤ toDWORD win10_raw10000000.ntBuild ∧
      (Initialize win10_raw10000000 initialState).g_buildNumber = 0 ∧
      (Initialize win10_raw10000000 initialState).g_darkModeSupported =
        initialState.g_darkModeSupported) ∧
    Initialize win6_raw10000000 supportedState =
      { supportedState with g_buildNumber := toDWORD win6_raw10000000.ntBuild % 2 ^ 28 } :=
  ⟨by decide,
   ((Initialize_build_masking win10_rawF0004563 initialState (by decide)).2.2.2
      (by decide) (by decide) (by decide) (by decide) (by decide) (by decide) (by decide)
      (by decide)).1 rfl,
   ((Initialize_build_masking win10_raw10000000 initialState (by decide)).2.2.2
      (by decide) (by decide) (by decide) (by decide) (by decide) (by decide) (by decide)
      (by decide)).2 rfl,
   (Initialize_build_masking win6_raw10000000 supportedState (by decide)).2.2.1
      (Or.inl (by decide))⟩

end DarkMode
